import Mathlib

/-!
Verification development for the assessment-timetabling solver harness.

The definitions below are a shallow embedding of the repository's Python
sources, file by file:

* `src/utilities/typehints.py` — the domain model (`Room`, `Exam`,
  `Invigilator`, `SchedulingProblem`);
* `src/conditioning/constraints.py` — the constraint catalog's
  `evaluate_metric` functions;
* `src/main.py` — `ProblemFileReader.read_file`, the instance-file ingester;
* `src/solvers/zthree.py`, `src/solvers/cbc.py`, `src/solvers/tabusearch.py`
  — the adapter `solve` methods (control-flow skeleton around the backend);
* `src/factories/solver_factory.py` — the solver registry;
* `src/user_interface/components/controllers.py` — the comparison
  pipeline's metric post-processing and overall-quality blending.

Machine integers are modelled by `Nat`/`Int` (Python ints are unbounded) and
Python float arithmetic by `ℚ` (exact real arithmetic, the reading used by
the specification).  Python dict-based assignments are modelled as total
maps `Nat → Nat` on exam ids `0 .. E-1`, matching the solution records the
backends emit (one record per exam id in `range(E)`).
-/

namespace Timetabling

/-- Domain model: `Room` from `src/utilities/typehints.py`. -/
structure Room where
  id : Nat
  capacity : Nat
deriving DecidableEq, Repr

/-- Domain model: `Exam` from `src/utilities/typehints.py`.  The Python
dataclass has only `id` and `students`; the catalog's evaluators probe the
optional dynamic attributes `morning_required` and `duration` via
`hasattr`, which we model as `Option` fields (absent = `none`). -/
structure Exam where
  id : Nat
  students : Finset Nat
  duration : Option Int := none
  morning_required : Option Bool := none
deriving DecidableEq

/-- Python `Exam.get_student_count`. -/
def Exam.get_student_count (e : Exam) : Nat := e.students.card

/-- Domain model: `Invigilator` from `src/utilities/typehints.py`. -/
structure Invigilator where
  id : Nat
  max_exams_per_day : Nat := 3
  unavailable_slots : List Nat := []
deriving DecidableEq

/-- Domain model: `SchedulingProblem` from `src/utilities/typehints.py`.
Time slots carry no data beyond their id, so we keep only their count. -/
structure SchedulingProblem where
  rooms : List Room
  number_of_slots : Nat
  exams : List Exam
  total_students : Nat
  invigilators : Option (List Invigilator) := none
deriving DecidableEq

/-- Python property `SchedulingProblem.number_of_rooms`. -/
def SchedulingProblem.number_of_rooms (p : SchedulingProblem) : Nat := p.rooms.length

/-- Python property `SchedulingProblem.number_of_exams`. -/
def SchedulingProblem.number_of_exams (p : SchedulingProblem) : Nat := p.exams.length

/-- Python property `SchedulingProblem.number_of_invigilators`. -/
def SchedulingProblem.number_of_invigilators (p : SchedulingProblem) : Nat :=
  match p.invigilators with
  | none => 0
  | some l => l.length

/-- Default exam used for the (always in-range) list indexing
`problem.exams[e]`. -/
def defaultExam : Exam := { id := 0, students := ∅ }

/-- Default room used for the list indexing `problem.rooms[r]`. -/
def defaultRoom : Room := { id := 0, capacity := 0 }

/-- The Python idiom `sum(scores) / len(scores) if scores else dflt` that
ends every catalog evaluator. -/
def pyAvg (scores : List ℚ) (dflt : ℚ) : ℚ :=
  if scores.isEmpty then dflt else scores.sum / scores.length

/-- Insertion step of the ascending insertion sort used to model Python's
`sorted` on slot lists. -/
def insortNat (x : Nat) : List Nat → List Nat
  | [] => [x]
  | y :: ys => if x ≤ y then x :: y :: ys else y :: insortNat x ys

/-- Ascending sort of a list of naturals (Python `sorted`). -/
def sortNat (l : List Nat) : List Nat := l.foldr insortNat []

/-- All ordered pairs `(l[i], l[j])` with `i < j`, in the nested-loop order
`for i, a in enumerate(l): for b in l[i+1:]` used throughout the catalog. -/
def listPairs {α : Type} : List α → List (α × α)
  | [] => []
  | x :: xs => (xs.map (fun y => (x, y))) ++ listPairs xs

/-- Python `zip(sorted, sorted[1:])`: the consecutive pairs of a list. -/
def consecPairs {α : Type} (l : List α) : List (α × α) :=
  List.zipWith (fun a b => (a, b)) l (l.drop 1)

/-!
Constraint catalog: the `evaluate_metric` functions of
`src/conditioning/constraints.py`, one `..._scores` definition for the list
of collected scores and one `..._evaluate` definition for the returned
value.  `time`/`room` are the `exam_time`/`exam_room` dicts, total on exam
ids `0 .. number_of_exams - 1`.
-/

/-- Scores of `SingleAssignmentConstraint.evaluate_metric`: the dict keys
are unique, so `exam_assignments[k] == 1` for every key and each key
contributes the score 100. -/
def singleAssignment_scores (p : SchedulingProblem) (_time _room : Nat → Nat) : List ℚ :=
  (List.range p.number_of_exams).map (fun _ => (100 : ℚ))

/-- Return value of `SingleAssignmentConstraint.evaluate_metric` (note the
empty-list default is 0, not 100). -/
def singleAssignment_evaluate (p : SchedulingProblem) (time room : Nat → Nat) : ℚ :=
  pyAvg (singleAssignment_scores p time room) 0

/-- Scores of `RoomConflictConstraint.evaluate_metric`: per slot, one score
per distinct room used in that slot. -/
def roomConflicts_scores (p : SchedulingProblem) (time room : Nat → Nat) : List ℚ :=
  (List.range p.number_of_slots).flatMap (fun t =>
    let slotRooms := ((List.range p.number_of_exams).filter (fun e => time e = t)).map room
    slotRooms.dedup.map (fun r =>
      let count := slotRooms.count r
      if count = 1 then (100 : ℚ) else max 0 (100 - ((count : ℚ) - 1) * 50)))

/-- Return value of `RoomConflictConstraint.evaluate_metric`. -/
def roomConflicts_evaluate (p : SchedulingProblem) (time room : Nat → Nat) : ℚ :=
  pyAvg (roomConflicts_scores p time room) 100

/-- Scores of `RoomCapacityConstraint.evaluate_metric`: per assigned exam,
skipping rooms with capacity `<= 0`. -/
def roomCapacity_scores (p : SchedulingProblem) (_time room : Nat → Nat) : List ℚ :=
  (List.range p.number_of_exams).filterMap (fun e =>
    let cap := (p.rooms.getD (room e) defaultRoom).capacity
    if cap ≤ 0 then none
    else
      let u : ℚ := (((p.exams.getD e defaultExam).get_student_count : ℚ) / (cap : ℚ)) * 100
      some (if u ≤ 100 then u else max 0 (100 - (u - 100) * 2)))

/-- Return value of `RoomCapacityConstraint.evaluate_metric` (note the
empty-list default is 0, not 100). -/
def roomCapacity_evaluate (p : SchedulingProblem) (time room : Nat → Nat) : ℚ :=
  pyAvg (roomCapacity_scores p time room) 0

/-- Scores of `NoConsecutiveSlotsConstraint.evaluate_metric` (catalog name
`student_spacing`): per student, one score per gap between consecutive
sorted exam times. -/
def studentSpacing_scores (p : SchedulingProblem) (time _room : Nat → Nat) : List ℚ :=
  (List.range p.total_students).flatMap (fun s =>
    let studentExams := (p.exams.filter (fun ex => s ∈ ex.students)).map (fun ex => ex.id)
    let ts := sortNat ((studentExams.filter (fun e => e < p.number_of_exams)).map time)
    if ts.length ≤ 1 then []
    else (consecPairs ts).map (fun g =>
      let gap := g.2 - g.1
      if gap = 0 then (0 : ℚ) else if gap = 1 then 50 else 100))

/-- Return value of `NoConsecutiveSlotsConstraint.evaluate_metric`. -/
def studentSpacing_evaluate (p : SchedulingProblem) (time room : Nat → Nat) : ℚ :=
  pyAvg (studentSpacing_scores p time room) 100

/-- Scores of `MaxExamsPerSlotConstraint.evaluate_metric`: one score per
distinct occupied slot. -/
def maxExamsPerSlot_scores (p : SchedulingProblem) (time _room : Nat → Nat) : List ℚ :=
  let slotVals := (List.range p.number_of_exams).map time
  slotVals.dedup.map (fun t =>
    let count := slotVals.count t
    if count ≤ 3 then (100 : ℚ) else max 0 (100 - ((count : ℚ) - 3) * 25))

/-- Return value of `MaxExamsPerSlotConstraint.evaluate_metric`. -/
def maxExamsPerSlot_evaluate (p : SchedulingProblem) (time room : Nat → Nat) : ℚ :=
  pyAvg (maxExamsPerSlot_scores p time room) 100

/-- Scores of `MorningSessionPreferenceConstraint.evaluate_metric`: one
score per exam whose (optional) `morning_required` attribute is present and
truthy. -/
def morningSessions_scores (p : SchedulingProblem) (time _room : Nat → Nat) : List ℚ :=
  (List.range p.number_of_exams).filterMap (fun e =>
    match (p.exams.getD e defaultExam).morning_required with
    | some true => some (if time e < p.number_of_slots / 2 then (100 : ℚ) else 0)
    | _ => none)

/-- Return value of `MorningSessionPreferenceConstraint.evaluate_metric`. -/
def morningSessions_evaluate (p : SchedulingProblem) (time room : Nat → Nat) : ℚ :=
  pyAvg (morningSessions_scores p time room) 100

/-- Python `ExamGroupSizeOptimizationConstraint._are_similar_size` with the
default threshold percentage of 20. -/
def are_similar_size (ex1 ex2 : Exam) : Bool :=
  let c1 := ex1.get_student_count
  let c2 := ex2.get_student_count
  let base := max c1 c2
  if base = 0 then true
  else decide ((|(c1 : ℚ) - (c2 : ℚ)| / (base : ℚ)) * 100 ≤ 20)

/-- Scores of `ExamGroupSizeOptimizationConstraint.evaluate_metric`: one
score per similar-sized exam pair. -/
def examGroupSize_scores (p : SchedulingProblem) (time _room : Nat → Nat) : List ℚ :=
  (listPairs (List.range p.number_of_exams)).filterMap (fun pr =>
    if are_similar_size (p.exams.getD pr.1 defaultExam) (p.exams.getD pr.2 defaultExam) then
      let d := ((time pr.1 : ℤ) - (time pr.2 : ℤ)).natAbs
      some (if d = 1 then (100 : ℚ) else if d = 0 then 50
            else max 0 (100 - ((d : ℚ) - 1) * 20))
    else none)

/-- Return value of `ExamGroupSizeOptimizationConstraint.evaluate_metric`. -/
def examGroupSize_evaluate (p : SchedulingProblem) (time room : Nat → Nat) : ℚ :=
  pyAvg (examGroupSize_scores p time room) 100

/-- Scores of `DepartmentGroupingConstraint.evaluate_metric`: departments
are simulated as exam-id ranges of width `max 1 (E // 3)`, and co-slotted
same-department pairs score by room distance. -/
def departmentGrouping_scores (p : SchedulingProblem) (time room : Nat → Nat) : List ℚ :=
  let deptSize := max 1 (p.number_of_exams / 3)
  (List.range p.number_of_slots).flatMap (fun t =>
    let slotExams := ((List.range p.number_of_exams).filter (fun e => time e = t)).map
      (fun e => (e, room e))
    (listPairs slotExams).filterMap (fun pr =>
      if pr.1.1 / deptSize = pr.2.1 / deptSize then
        let dist := ((pr.1.2 : ℤ) - (pr.2.2 : ℤ)).natAbs
        some (max 0 (100 - (dist : ℚ) * 25))
      else none))

/-- Return value of `DepartmentGroupingConstraint.evaluate_metric`. -/
def departmentGrouping_evaluate (p : SchedulingProblem) (time room : Nat → Nat) : ℚ :=
  pyAvg (departmentGrouping_scores p time room) 100

/-- The `room_usage` dict of `RoomBalancingConstraint.evaluate_metric`:
distinct used rooms with their usage counts. -/
def roomBalancing_usage (p : SchedulingProblem) (room : Nat → Nat) : List (Nat × Nat) :=
  let roomVals := (List.range p.number_of_exams).map room
  roomVals.dedup.map (fun r => (r, roomVals.count r))

/-- Return value of `RoomBalancingConstraint.evaluate_metric` (note: an
empty usage dict returns 0, not 100). -/
def roomBalancing_evaluate (p : SchedulingProblem) (_time room : Nat → Nat) : ℚ :=
  let usage := roomBalancing_usage p room
  if usage.isEmpty then 0
  else
    let counts := usage.map (fun u => (u.2 : ℚ))
    let avgUsage := counts.sum / counts.length
    let maxDev := (counts.map (fun c => |c - avgUsage|)).foldr max 0
    max 0 (100 - maxDev * 15)

/-- The slot list collected for invigilator `i` (assignment strategy
`invigilator_id = room % len(invigilators)`), shared by the two
invigilator evaluators. -/
def invigSlots (p : SchedulingProblem) (time room : Nat → Nat) (n i : Nat) : List Nat :=
  (List.range p.number_of_exams).filterMap (fun e =>
    if room e % n = i then some (time e) else none)

/-- Per-invigilator scores of `InvigilatorAssignmentConstraint.evaluate_metric`:
a workload score, a 0 for each slot in the invigilator's unavailable set,
and a 50/100 for each consecutive pair of sorted assigned slots. -/
def invigAssignment_scoresFor (inv : Invigilator) (slots : List Nat) : List ℚ :=
  (if inv.max_exams_per_day < slots.length then
      [max 0 (100 - ((slots.length - inv.max_exams_per_day : Nat) : ℚ) * 25)]
    else [100])
  ++ slots.filterMap (fun s => if s ∈ inv.unavailable_slots then some (0 : ℚ) else none)
  ++ (consecPairs (sortNat slots)).map (fun g => if g.2 - g.1 = 1 then (50 : ℚ) else 100)

/-- Scores of `InvigilatorAssignmentConstraint.evaluate_metric` over the
invigilators that receive at least one exam. -/
def invigilatorAssignment_scores (p : SchedulingProblem) (time room : Nat → Nat)
    (invigs : List Invigilator) : List ℚ :=
  let invigIds := ((List.range p.number_of_exams).map (fun e => room e % invigs.length)).dedup
  invigIds.flatMap (fun i =>
    invigAssignment_scoresFor (invigs.getD i { id := 0 }) (invigSlots p time room invigs.length i))

/-- Return value of `InvigilatorAssignmentConstraint.evaluate_metric`. -/
def invigilatorAssignment_evaluate (p : SchedulingProblem) (time room : Nat → Nat) : ℚ :=
  match p.invigilators with
  | none => 100
  | some [] => 100
  | some invigs => pyAvg (invigilatorAssignment_scores p time room invigs) 100

/-- Scores of `BreakPeriodConstraint.evaluate_metric`: one score per exam
with `duration > 120` not sitting in the last slot, 100 when the following
slot is empty and 0 otherwise. -/
def breakPeriod_scores (p : SchedulingProblem) (time _room : Nat → Nat) : List ℚ :=
  (List.range p.number_of_exams).filterMap (fun e1 =>
    match (p.exams.getD e1 defaultExam).duration with
    | some d =>
      if d > 120 then
        let t1 := time e1
        if t1 < p.number_of_slots - 1 then
          some (if (List.range p.number_of_exams).all (fun e2 => time e2 ≠ t1 + 1)
                then (100 : ℚ) else 0)
        else none
      else none
    | none => none)

/-- Return value of `BreakPeriodConstraint.evaluate_metric`. -/
def breakPeriod_evaluate (p : SchedulingProblem) (time room : Nat → Nat) : ℚ :=
  pyAvg (breakPeriod_scores p time room) 100

/-- Scores of `InvigilatorBreakConstraint.evaluate_metric`: for every
invigilator id with a nonempty assignment list, a 0/100 per consecutive
pair of sorted assigned slots. -/
def invigilatorBreak_scores (p : SchedulingProblem) (time room : Nat → Nat)
    (n : Nat) : List ℚ :=
  (List.range n).flatMap (fun i =>
    let assignments := invigSlots p time room n i
    if assignments.isEmpty then []
    else (consecPairs (sortNat assignments)).map (fun g =>
      if g.2 - g.1 = 1 then (0 : ℚ) else 100))

/-- Return value of `InvigilatorBreakConstraint.evaluate_metric`. -/
def invigilatorBreak_evaluate (p : SchedulingProblem) (time room : Nat → Nat) : ℚ :=
  match p.invigilators with
  | none => 100
  | some [] => 100
  | some invigs => pyAvg (invigilatorBreak_scores p time room invigs.length) 100

/-- The twelve catalog entries, by their stable short names. -/
inductive ConstraintName
  | single_assignment | room_conflicts | room_capacity | student_spacing
  | max_exams_per_slot | morning_sessions | exam_group_size | department_grouping
  | room_balancing | invigilator_assignment | break_period | invigilator_break
deriving DecidableEq, Repr

/-- Dispatch of `evaluate_metric` over the catalog. -/
def evaluateMetric : ConstraintName → SchedulingProblem → (Nat → Nat) → (Nat → Nat) → ℚ
  | .single_assignment, p, t, r => singleAssignment_evaluate p t r
  | .room_conflicts, p, t, r => roomConflicts_evaluate p t r
  | .room_capacity, p, t, r => roomCapacity_evaluate p t r
  | .student_spacing, p, t, r => studentSpacing_evaluate p t r
  | .max_exams_per_slot, p, t, r => maxExamsPerSlot_evaluate p t r
  | .morning_sessions, p, t, r => morningSessions_evaluate p t r
  | .exam_group_size, p, t, r => examGroupSize_evaluate p t r
  | .department_grouping, p, t, r => departmentGrouping_evaluate p t r
  | .room_balancing, p, t, r => roomBalancing_evaluate p t r
  | .invigilator_assignment, p, t, r => invigilatorAssignment_evaluate p t r
  | .break_period, p, t, r => breakPeriod_evaluate p t r
  | .invigilator_break, p, t, r => invigilatorBreak_evaluate p t r

/-- The `constraint_map` dict shared by the adapters
(`src/solvers/zthree.py`, `cbc.py`, `tabusearch.py`) and the comparison
controller. -/
def constraintOfName : String → Option ConstraintName
  | "single_assignment" => some .single_assignment
  | "room_conflicts" => some .room_conflicts
  | "room_capacity" => some .room_capacity
  | "student_spacing" => some .student_spacing
  | "max_exams_per_slot" => some .max_exams_per_slot
  | "morning_sessions" => some .morning_sessions
  | "exam_group_size" => some .exam_group_size
  | "department_grouping" => some .department_grouping
  | "room_balancing" => some .room_balancing
  | "invigilator_assignment" => some .invigilator_assignment
  | "break_period" => some .break_period
  | "invigilator_break" => some .invigilator_break
  | _ => none

/-- A syntactically valid assignment: every exam's room lies in `[0, R)`
and every exam's slot lies in `[0, T)`. -/
def ValidAssignment (p : SchedulingProblem) (time room : Nat → Nat) : Prop :=
  ∀ e, e < p.number_of_exams →
    time e < p.number_of_slots ∧ room e < p.number_of_rooms

/-!
Ingester: `ProblemFileReader.read_file` from `src/main.py`.  A file is a
list of lines (without their trailing newline, which the regex anchor `$`
ignores).  Header lines must match `name:\s*(\d+)$`, enrollment lines
`^\s*(\d+)\s+(\d+)\s*$`; blank (all-whitespace) enrollment lines are
skipped.
-/

/-- Characters matched by the regex class `\s`. -/
def isPySpace (c : Char) : Bool :=
  c = ' ' || c = '\t' || c = '\n' || c = '\r' || c = Char.ofNat 11 || c = Char.ofNat 12

/-- Numeric value of a digit string. -/
def digitsVal (cs : List Char) : Nat :=
  cs.foldl (fun acc c => acc * 10 + (c.toNat - '0'.toNat)) 0

/-- Whether the first list is an initial segment of the second (regex
matching is anchored at the start of the line). -/
def headMatches : List Char → List Char → Bool
  | [], _ => true
  | _ :: _, [] => false
  | c :: cs, d :: ds => c = d && headMatches cs ds

/-- Matching of `f'\x7bname\x7d:\s*(\d+)$'` against one line
(`read_attribute` in `ProblemFileReader.read_file`). -/
def parseHeaderValue (name line : String) : Option Nat :=
  let pre := name.data ++ [':']
  if headMatches pre line.data then
    let rest := (line.data.drop pre.length).dropWhile isPySpace
    if rest.isEmpty then none
    else if rest.all Char.isDigit then some (digitsVal rest) else none
  else none

/-- Matching of `'^\s*(\d+)\s+(\d+)\s*$'` against one enrollment line. -/
def parseEnrollmentLine (line : String) : Option (Nat × Nat) :=
  let cs := line.data.dropWhile isPySpace
  let d1 := cs.takeWhile Char.isDigit
  let rest1 := cs.dropWhile Char.isDigit
  if d1.isEmpty then none
  else if (rest1.takeWhile isPySpace).isEmpty then none
  else
    let rest2 := rest1.dropWhile isPySpace
    let d2 := rest2.takeWhile Char.isDigit
    let rest3 := rest2.dropWhile Char.isDigit
    if d2.isEmpty then none
    else if (rest3.dropWhile isPySpace).isEmpty then some (digitsVal d1, digitsVal d2)
    else none

/-- One `read_attribute` call: consume one line (an exhausted file reads as
the empty string, which fails the match) and parse the named header. -/
def readAttr (name : String) : List String → Option (Nat × List String)
  | [] => none
  | l :: ls =>
    match parseHeaderValue name l with
    | some v => some (v, ls)
    | none => none

/-- The `Room r capacity` header loop. -/
def readRooms (idx count : Nat) (ls : List String) : Option (List Room × List String) :=
  match count with
  | 0 => some ([], ls)
  | c + 1 =>
    match readAttr ("Room " ++ toString idx ++ " capacity") ls with
    | none => none
    | some (cap, ls2) =>
      match readRooms (idx + 1) c ls2 with
      | none => none
      | some (rooms, ls3) => some ({ id := idx, capacity := cap } :: rooms, ls3)

/-- Insert one `(exam, student)` pair into the `exam_students` dict
(insertion-ordered association list of student sets). -/
def addEnrollment (examId studentId : Nat) :
    List (Nat × Finset Nat) → List (Nat × Finset Nat)
  | [] => [(examId, {studentId})]
  | (k, s) :: rest =>
    if k = examId then (k, insert studentId s) :: rest
    else (k, s) :: addEnrollment examId studentId rest

/-- The enrollment loop `for line in f`: skip blank lines, fail on a line
that matches neither, aggregate the rest. -/
def readEnrollments : List String → List (Nat × Finset Nat) →
    Option (List (Nat × Finset Nat))
  | [], acc => some acc
  | l :: ls, acc =>
    if (l.data.dropWhile isPySpace).isEmpty then readEnrollments ls acc
    else
      match parseEnrollmentLine l with
      | some pr => readEnrollments ls (addEnrollment pr.1 pr.2 acc)
      | none => none

/-- `ProblemFileReader.read_file`: the four headers, the room-capacity
lines, then the enrollment lines.  The declared exam count is read but
never used, and no declared quantity is cross-checked against the
enrollment data. -/
def read_file (lines : List String) : Option SchedulingProblem :=
  match readAttr "Number of students" lines with
  | none => none
  | some (numStudents, ls1) =>
    match readAttr "Number of exams" ls1 with
    | none => none
    | some (_numExams, ls2) =>
      match readAttr "Number of slots" ls2 with
      | none => none
      | some (numSlots, ls3) =>
        match readAttr "Number of rooms" ls3 with
        | none => none
        | some (numRooms, ls4) =>
          match readRooms 0 numRooms ls4 with
          | none => none
          | some (rooms, ls5) =>
            match readEnrollments ls5 [] with
            | none => none
            | some examStudents =>
              some { rooms := rooms,
                     number_of_slots := numSlots,
                     exams := examStudents.map (fun kv => { id := kv.1, students := kv.2 }),
                     total_students := numStudents }

/-- Whether student `s` occurs in some exam's student set of an
`exam_students` association list. -/
def studentIn (s : Nat) (acc : List (Nat × Finset Nat)) : Prop :=
  ∃ kv ∈ acc, s ∈ kv.2

/-!
Solver adapters: the control flow of the `solve` methods of
`src/solvers/zthree.py`, `src/solvers/cbc.py` and
`src/solvers/tabusearch.py` around an abstracted backend.  A value
`Except.error msg` models a Python exception propagating out of `solve`;
`Except.ok none` models `return None` (the UNSAT result); `Except.ok
(some sol)` a returned solution list.
-/

/-- One record `{'examId': e, 'room': r, 'timeSlot': t}` of a solution
list. -/
structure AssignRec where
  examId : Nat
  room : Nat
  timeSlot : Nat
deriving DecidableEq, Repr

/-- What the Z3 backend does during `ZThreeSolver.solve`: `check()` either
reports unsat, or yields a model (exam id ↦ (time, room), read back with
`as_long()`), or some backend call raises. -/
inductive Z3Outcome
  | sat (model : Nat → Nat × Nat)
  | unsat
  | raises (msg : String)

/-- `ZThreeSolver.solve` (`src/solvers/zthree.py`, lines 54–76): there is
no try/except, so a backend exception propagates to the caller. -/
def zthreeSolve (p : SchedulingProblem) :
    Z3Outcome → Except String (Option (List AssignRec))
  | .raises msg => .error msg
  | .unsat => .ok none
  | .sat m => .ok (some ((List.range p.number_of_exams).map
      (fun e => { examId := e, room := (m e).2, timeSlot := (m e).1 })))

/-- What the CBC backend does during `CBCSolver.solve`: either the whole
try-block body raises, or `model.solve` returns a status together with the
variable valuation `value(exam_assignment[(e, r, t)]) > 0.5`. -/
inductive CbcOutcome
  | solved (status : Int) (val : Nat → Nat → Nat → Bool)
  | raises (msg : String)

/-- The nested extraction loops of `CBCSolver.solve`: first `(r, t)` (rooms
outer, slots inner) whose indicator is set. -/
def cbcFindCell (val : Nat → Nat → Nat → Bool) (e numRooms numSlots : Nat) :
    Option (Nat × Nat) :=
  ((List.range numRooms).flatMap (fun r => (List.range numSlots).map (fun t => (r, t)))).find?
    (fun rt => val e rt.1 rt.2)

/-- `CBCSolver.solve` (`src/solvers/cbc.py`, lines 82–168): `status >= 0`
leads to extraction (any unassigned exam yields `None`), `status < 0`
yields `None`, and the `except` branch prints the message and returns
`None` — the same value as UNSAT. -/
def cbcSolve (p : SchedulingProblem) :
    CbcOutcome → Except String (Option (List AssignRec))
  | .raises _msg => .ok none
  | .solved status val =>
    if 0 ≤ status then
      match (List.range p.number_of_exams).mapM (fun e =>
        (cbcFindCell val e p.number_of_rooms p.number_of_slots).map
          (fun rt => { examId := e, room := rt.1, timeSlot := rt.2 : AssignRec })) with
      | none => .ok none
      | some recs => .ok (if recs.length = p.number_of_exams then some recs else none)
    else .ok none

/-- What the tabu-search loop of `TabuSearchSolver.solve` produces: either
the try-block body raises, or the search finishes holding `best_solution`
and `best_score` (the random-driven loop itself is summarised by its
result). -/
inductive TabuOutcome
  | finished (best : List AssignRec) (bestScore : ℚ)
  | raises (msg : String)

/-- `TabuSearchSolver.solve` (`src/solvers/tabusearch.py`, lines 115–168):
returns `best_solution` only on a zero penalty score, `None` otherwise, and
the `except` branch prints the message and returns `None`. -/
def tabuSolve : TabuOutcome → Except String (Option (List AssignRec))
  | .raises _msg => .ok none
  | .finished best score => .ok (if score = 0 then some best else none)

/-!
Solver factory: `src/factories/solver_factory.py`.
-/

/-- The four registered adapter classes. -/
inductive AdapterKind
  | z3 | ortools | gurobi | cbc
deriving DecidableEq, Repr

/-- An adapter instance `SolverFactory.solvers[name](problem)`. -/
structure ConstructedAdapter where
  kind : AdapterKind
  problem : SchedulingProblem

/-- The registry dict `SolverFactory.solvers`. -/
def factorySolvers : List (String × AdapterKind) :=
  [("z3", .z3), ("ortools", .ortools), ("gurobi", .gurobi), ("cbc", .cbc)]

/-- `SolverFactory.get_solver`: unknown keys raise
`ValueError(f"Unknown solver: \x7bname\x7d")`. -/
def factoryGetSolver (name : String) (p : SchedulingProblem) :
    Except String ConstructedAdapter :=
  match factorySolvers.lookup name with
  | some k => .ok { kind := k, problem := p }
  | none => .error ("Unknown solver: " ++ name)

/-!
Active-constraint selection in the adapter constructors
(`ZThreeSolver.__init__`, `CBCSolver.__init__`, `TabuSearchSolver.__init__`
all share it verbatim), and the comparison pipeline of
`src/user_interface/components/controllers.py`.
-/

/-- The default core constraint list used when `active_constraints is
None`. -/
def default_active_constraints : List String :=
  ["single_assignment", "room_conflicts", "room_capacity",
   "student_spacing", "max_exams_per_slot"]

/-- The constraint registration loop of the adapter constructors: `None`
falls back to the defaults, any given list — including the empty one — is
filtered through `constraint_map` as is.  The resulting list is exactly
the set of encoders `solve` later applies. -/
def solverSelectedConstraints (active : Option (List String)) : List ConstraintName :=
  (match active with
   | none => default_active_constraints
   | some l => l).filterMap constraintOfName

/-- The value post-processing of `ComparisonController._calculate_metrics`:
`max(v, 1.0) if v is not None else 50.0`. -/
def postMetric : Option ℚ → ℚ
  | some v => max v 1
  | none => 50

/-- `ComparisonController._calculate_metrics`: one post-processed evaluator
result per active constraint name found in the catalog (the evaluator
itself always yields a value, so `postMetric` is fed `some`). -/
def calculateMetrics (p : SchedulingProblem) (time room : Nat → Nat)
    (active : List String) : List (ConstraintName × ℚ) :=
  active.filterMap (fun s => (constraintOfName s).map
    (fun c => (c, postMetric (some (evaluateMetric c p time room)))))

/-- The weights dict of `ComparisonController._determine_overall_quality`;
`max_exams_per_slot` and `invigilator_assignment` carry no weight. -/
def qualityWeight : ConstraintName → Option ℚ
  | .single_assignment => some (15 / 100)
  | .room_conflicts => some (15 / 100)
  | .room_capacity => some (10 / 100)
  | .student_spacing => some (10 / 100)
  | .morning_sessions => some (5 / 100)
  | .break_period => some (10 / 100)
  | .exam_group_size => some (5 / 100)
  | .department_grouping => some (10 / 100)
  | .room_balancing => some (10 / 100)
  | .invigilator_break => some (10 / 100)
  | .max_exams_per_slot => none
  | .invigilator_assignment => none

/-- The accumulation loop of `_determine_overall_quality`: running weighted
sums for both sides and the running total weight, over the active
constraints that carry a weight and appear in both metric maps. -/
def qualityAccum (m1 m2 : ConstraintName → Option ℚ) (active : List String) :
    ℚ × ℚ × ℚ :=
  active.foldl (fun acc s =>
    match constraintOfName s with
    | none => acc
    | some c =>
      match qualityWeight c, m1 c, m2 c with
      | some w, some x1, some x2 => (acc.1 + w * x1, acc.2.1 + w * x2, acc.2.2 + w)
      | _, _, _ => acc) (0, 0, 0)

/-- The two overall quality scores computed by
`ComparisonController._determine_overall_quality` (lines 460–505): each
weighted sum is divided by the total weight and multiplied by 100, then
blended with the time score when `max(time1, time2) > 0`. -/
def determineOverallScores (m1 m2 : ConstraintName → Option ℚ) (t1 t2 : ℚ)
    (active : List String) : ℚ × ℚ :=
  let acc := qualityAccum m1 m2 active
  let tw := acc.2.2
  let s1 := if 0 < tw then acc.1 / tw * 100 else acc.1
  let s2 := if 0 < tw then acc.2.1 / tw * 100 else acc.2.1
  let timeWeight : ℚ := 15 / 100
  let maxTime := max t1 t2
  if 0 < maxTime then
    (s1 * (1 - timeWeight) + (100 * (1 - t1 / maxTime)) * timeWeight,
     s2 * (1 - timeWeight) + (100 * (1 - t2 / maxTime)) * timeWeight)
  else (s1, s2)

/-- The overall outcome is reported as `Equal` exactly when the two scores
of `_determine_overall_quality` differ by less than 1.0. -/
def overallTie (m1 m2 : ConstraintName → Option ℚ) (t1 t2 : ℚ)
    (active : List String) : Bool :=
  let q := determineOverallScores m1 m2 t1 t2 active
  decide (|q.1 - q.2| < 1)

/-- Modelled from the spec (§4.4): `S`, the constraint-weighted mean over
active constraints with the weights normalised to sum 1, taken over the
applicable set (weighted, present on both sides) the comparator scores. -/
def spec_S (m1 m2 : ConstraintName → Option ℚ) (active : List String)
    (side : Fin 2) : ℚ :=
  let acc := qualityAccum m1 m2 active
  (if side = 0 then acc.1 else acc.2.1) / acc.2.2

/-- Modelled from the spec (§4.4): `TimeScore = 100 · (1 −
t_self / max(t_self, t_other))`. -/
def spec_TimeScore (tSelf tOther : ℚ) : ℚ :=
  100 * (1 - tSelf / max tSelf tOther)

/-- Modelled from the spec (§4.4): `Final = 0.85·S + 0.15·TimeScore`. -/
def spec_Final (S TS : ℚ) : ℚ :=
  (85 / 100) * S + (15 / 100) * TS

/-!
Big-M constants: every big-M linearisation constant appearing in the
MIP-style (`apply_gurobi` / `apply_cbc`) encoders, one list entry per
occurrence in the source, as a function of the problem.  Two encoder files
coexist: `src/constraints.py` and `src/conditioning/constraints.py`.
-/

/-- Big-M constants of `RoomConflictConstraint.apply_gurobi` and
`apply_cbc` — identical in both files (`M = number_of_slots + 1`). -/
def bigM_roomConflicts_mip (p : SchedulingProblem) : List Int :=
  [(p.number_of_slots : Int) + 1]

/-- Big-M constants of `RoomCapacityConstraint.apply_gurobi` — identical in
both files. -/
def bigM_roomCapacity_gurobi (p : SchedulingProblem) : List Int :=
  [(p.number_of_slots : Int) + 1]

/-- Big-M constants of `RoomCapacityConstraint.apply_cbc` in
`src/conditioning/constraints.py` (lines 170–181). -/
def bigM_roomCapacity_cbc_conditioning (p : SchedulingProblem) : List Int :=
  [(p.number_of_slots : Int) + 1]

/-- Big-M constants of `RoomCapacityConstraint.apply_cbc` in
`src/constraints.py` (lines 152–170): the literal 1000 in both linking
constraints. -/
def bigM_roomCapacity_cbc_constraintsPy (_p : SchedulingProblem) : List Int :=
  [1000, 1000]

/-- Big-M constants of `NoConsecutiveSlotsConstraint.apply_gurobi` and
`apply_cbc` — identical in both files. -/
def bigM_studentSpacing_mip (p : SchedulingProblem) : List Int :=
  [(p.number_of_slots : Int) + 1]

/-- Big-M constants of `MaxExamsPerSlotConstraint.apply_gurobi` — identical
in both files. -/
def bigM_maxExamsPerSlot_gurobi (p : SchedulingProblem) : List Int :=
  [(p.number_of_slots : Int) + 1]

/-- Big-M constants of `MaxExamsPerSlotConstraint.apply_cbc` in
`src/conditioning/constraints.py` (lines 316–326). -/
def bigM_maxExamsPerSlot_cbc_conditioning (p : SchedulingProblem) : List Int :=
  [(p.number_of_slots : Int) + 1]

/-- Big-M constants of `MaxExamsPerSlotConstraint.apply_cbc` in
`src/constraints.py` (lines 293–305): the literal 1000 in both linking
constraints. -/
def bigM_maxExamsPerSlot_cbc_constraintsPy (_p : SchedulingProblem) : List Int :=
  [1000, 1000]

/-- Big-M constants of `ExamGroupSizeOptimizationConstraint.apply_gurobi`
(line 473) and `apply_cbc` (line 527): `M = number_of_slots`, without the
`+ 1`. -/
def bigM_examGroupSize_mip (p : SchedulingProblem) : List Int :=
  [(p.number_of_slots : Int)]

/-- Big-M constants of `DepartmentGroupingConstraint.apply_gurobi` and
`apply_cbc`. -/
def bigM_departmentGrouping_mip (p : SchedulingProblem) : List Int :=
  [(p.number_of_slots : Int) + 1]

/-- Big-M constants of `RoomBalancingConstraint.apply_gurobi` and
`apply_cbc`. -/
def bigM_roomBalancing_mip (p : SchedulingProblem) : List Int :=
  [(p.number_of_slots : Int) + 1]

/-- Big-M constants of `InvigilatorAssignmentConstraint.apply_gurobi` and
`apply_cbc` (lines 811/824/841 and 874/887/904): the invigilator-indicator
link uses `M = number_of_invigilators`, the two slot links use
`number_of_slots + 1`. -/
def bigM_invigilatorAssignment_mip (p : SchedulingProblem) : List Int :=
  [(p.number_of_invigilators : Int),
   (p.number_of_slots : Int) + 1, (p.number_of_slots : Int) + 1]

/-- Big-M constants of `BreakPeriodConstraint.apply_gurobi` (line 991). -/
def bigM_breakPeriod_gurobi (p : SchedulingProblem) : List Int :=
  [(p.number_of_slots : Int) + 1]

/-- Every big-M constant of every MIP-style encoder across both constraint
files. -/
def bigM_all (p : SchedulingProblem) : List Int :=
  bigM_roomConflicts_mip p ++ bigM_roomCapacity_gurobi p ++
  bigM_roomCapacity_cbc_conditioning p ++ bigM_roomCapacity_cbc_constraintsPy p ++
  bigM_studentSpacing_mip p ++ bigM_maxExamsPerSlot_gurobi p ++
  bigM_maxExamsPerSlot_cbc_conditioning p ++ bigM_maxExamsPerSlot_cbc_constraintsPy p ++
  bigM_examGroupSize_mip p ++ bigM_departmentGrouping_mip p ++
  bigM_roomBalancing_mip p ++ bigM_invigilatorAssignment_mip p ++
  bigM_breakPeriod_gurobi p

/-- The big-M constants of the encoders that do use `T + 1`. -/
def bigM_conforming (p : SchedulingProblem) : List Int :=
  bigM_roomConflicts_mip p ++ bigM_roomCapacity_gurobi p ++
  bigM_roomCapacity_cbc_conditioning p ++ bigM_studentSpacing_mip p ++
  bigM_maxExamsPerSlot_gurobi p ++ bigM_maxExamsPerSlot_cbc_conditioning p ++
  bigM_departmentGrouping_mip p ++ bigM_roomBalancing_mip p ++
  (bigM_invigilatorAssignment_mip p).drop 1 ++ bigM_breakPeriod_gurobi p

/-!
Concrete instances used by the theorems below.
-/

/-- The §8 S5 scenario: two rooms of capacity 10, two slots, one exam with
eight students. -/
def problemS5 : SchedulingProblem :=
  { rooms := [{ id := 0, capacity := 10 }, { id := 1, capacity := 10 }],
    number_of_slots := 2,
    exams := [{ id := 0, students := Finset.range 8 }],
    total_students := 8 }

/-- The S5 assignment: exam 0 in room 0 at slot 0. -/
def timeS5 : Nat → Nat := fun _ => 0

/-- The S5 assignment rooms. -/
def roomS5 : Nat → Nat := fun _ => 0

/-- A problem whose only room has capacity zero, so the room-capacity
evaluator collects no applicable scored item. -/
def problemZeroCap : SchedulingProblem :=
  { rooms := [{ id := 0, capacity := 0 }],
    number_of_slots := 1,
    exams := [{ id := 0, students := {0} }],
    total_students := 1 }

/-- A problem with no exams at all. -/
def problemNoExams : SchedulingProblem :=
  { rooms := [{ id := 0, capacity := 0 }],
    number_of_slots := 1,
    exams := [],
    total_students := 0 }

/-- A problem with no exams but one registered invigilator, so every
evaluator collects an empty score list. -/
def problemInvigNoExams : SchedulingProblem :=
  { rooms := [{ id := 0, capacity := 0 }],
    number_of_slots := 1,
    exams := [],
    total_students := 0,
    invigilators := some [{ id := 0 }] }

/-- An instance file that parses successfully while declaring one student
and enrolling student id 5. -/
def badInstanceLines : List String :=
  ["Number of students: 1", "Number of exams: 1", "Number of slots: 1",
   "Number of rooms: 1", "Room 0 capacity: 1", "0 5"]

/-- A well-formed instance file: two students enrolled in one exam. -/
def goodInstanceLines : List String :=
  ["Number of students: 2", "Number of exams: 1", "Number of slots: 2",
   "Number of rooms: 1", "Room 0 capacity: 2", "0 0", "0 1"]

/-- The problem produced by parsing `badInstanceLines`. -/
def problemBad : SchedulingProblem :=
  { rooms := [{ id := 0, capacity := 1 }],
    number_of_slots := 1,
    exams := [{ id := 0, students := {5} }],
    total_students := 1 }

/-- The problem produced by parsing `goodInstanceLines` (the student set is
written in the insertion order the enrollment loop produces). -/
def problemGood : SchedulingProblem :=
  { rooms := [{ id := 0, capacity := 2 }],
    number_of_slots := 2,
    exams := [{ id := 0, students := insert 1 ({0} : Finset Nat) }],
    total_students := 2 }

/-- A metric map giving every catalog constraint the perfect score 100. -/
def metricsAll100 : ConstraintName → Option ℚ := fun _ => some 100

/-!
Shared helper lemmas.
-/

theorem list_sum_nonneg_of_mem {l : List ℚ} (h : ∀ x ∈ l, 0 ≤ x) : 0 ≤ l.sum := by
  induction l with
  | nil => simp
  | cons a t ih =>
      simp only [List.sum_cons]
      have ha := h a (by simp)
      have ht := ih (fun x hx => h x (by simp [hx]))
      linarith

theorem list_sum_le_of_mem {l : List ℚ} {c : ℚ} (h : ∀ x ∈ l, x ≤ c) :
    l.sum ≤ c * l.length := by
  induction l with
  | nil => simp
  | cons a t ih =>
      simp only [List.sum_cons, List.length_cons]
      have ha := h a (by simp)
      have ht := ih (fun x hx => h x (by simp [hx]))
      push_cast
      linarith

/-- The final `sum/len if scores else dflt` stays inside `[0, 100]` whenever
every collected score and the empty-case default do. -/
theorem pyAvg_bounds {l : List ℚ} {d : ℚ}
    (h : ∀ x ∈ l, 0 ≤ x ∧ x ≤ 100) (hd0 : 0 ≤ d) (hd1 : d ≤ 100) :
    0 ≤ pyAvg l d ∧ pyAvg l d ≤ 100 := by
  unfold pyAvg
  by_cases he : l.isEmpty
  · simp [he, hd0, hd1]
  · have hne : l ≠ [] := by
      cases l with
      | nil => simp at he
      | cons a t => simp
    have hlen : 0 < (l.length : ℚ) := by
      have h0 : 0 < l.length := List.length_pos.mpr hne
      exact_mod_cast h0
    have hs0 : 0 ≤ l.sum := list_sum_nonneg_of_mem (fun x hx => (h x hx).1)
    have hs1 : l.sum ≤ 100 * l.length := list_sum_le_of_mem (fun x hx => (h x hx).2)
    have hif : (if l.isEmpty = true then d else l.sum / (l.length : ℚ)) =
        l.sum / (l.length : ℚ) := by simp [he]
    rw [hif]
    constructor
    · positivity
    · rw [div_le_iff₀ hlen]
      linarith

/-- A penalty score `max(0, 100 - pen)` lies in `[0, 100]` when the penalty
is nonnegative. -/
theorem penalty_bounds {pen : ℚ} (hp : 0 ≤ pen) :
    0 ≤ max 0 (100 - pen) ∧ max 0 (100 - pen) ≤ 100 := by
  constructor
  · exact le_max_left _ _
  · rw [max_le_iff]
    constructor <;> linarith

theorem ite_bounds {c : Prop} [Decidable c] {a b : ℚ}
    (ha : 0 ≤ a ∧ a ≤ 100) (hb : 0 ≤ b ∧ b ≤ 100) :
    0 ≤ (if c then a else b) ∧ (if c then a else b) ≤ 100 := by
  split <;> assumption

theorem foldr_max_nonneg (l : List ℚ) : 0 ≤ l.foldr max 0 := by
  induction l with
  | nil => simp
  | cons a t ih =>
      simp only [List.foldr_cons]
      exact le_trans ih (le_max_right a _)

/-!
Range lemmas for the twelve evaluator score lists.
-/

theorem singleAssignment_scores_bounds (p : SchedulingProblem) (time room : Nat → Nat) :
    ∀ x ∈ singleAssignment_scores p time room, 0 ≤ x ∧ x ≤ 100 := by
  intro x hx
  simp only [singleAssignment_scores, List.mem_map] at hx
  obtain ⟨e, _, rfl⟩ := hx
  norm_num

theorem roomConflicts_scores_bounds (p : SchedulingProblem) (time room : Nat → Nat) :
    ∀ x ∈ roomConflicts_scores p time room, 0 ≤ x ∧ x ≤ 100 := by
  intro x hx
  simp only [roomConflicts_scores, List.mem_flatMap, List.mem_map] at hx
  obtain ⟨t, -, r, hr, rfl⟩ := hx
  refine ite_bounds (by norm_num) (penalty_bounds ?_)
  have hcount : 0 < (((List.range p.number_of_exams).filter
      (fun e => time e = t)).map room).count r :=
    List.count_pos_iff.mpr (List.mem_dedup.mp hr)
  have h1 : (1 : ℚ) ≤ (((List.range p.number_of_exams).filter
      (fun e => time e = t)).map room).count r := by exact_mod_cast hcount
  nlinarith

theorem roomCapacity_scores_bounds (p : SchedulingProblem) (time room : Nat → Nat) :
    ∀ x ∈ roomCapacity_scores p time room, 0 ≤ x ∧ x ≤ 100 := by
  intro x hx
  simp only [roomCapacity_scores, List.mem_filterMap] at hx
  obtain ⟨e, -, he⟩ := hx
  split at he
  · exact absurd he (by simp)
  · rename_i hc
    rw [Option.some_inj] at he
    subst he
    set u : ℚ := (((p.exams.getD e defaultExam).get_student_count : ℚ) /
      ((p.rooms.getD (room e) defaultRoom).capacity : ℚ)) * 100 with hu_def
    have hcap : (0 : ℚ) < ((p.rooms.getD (room e) defaultRoom).capacity : ℚ) := by
      have h1 : 0 < (p.rooms.getD (room e) defaultRoom).capacity := by omega
      exact_mod_cast h1
    have hu0 : 0 ≤ u := by
      rw [hu_def]
      positivity
    by_cases hle : u ≤ 100
    · rw [if_pos hle]
      exact ⟨hu0, hle⟩
    · rw [if_neg hle]
      refine penalty_bounds ?_
      have h100 : (100 : ℚ) < u := lt_of_not_le hle
      linarith

theorem studentSpacing_scores_bounds (p : SchedulingProblem) (time room : Nat → Nat) :
    ∀ x ∈ studentSpacing_scores p time room, 0 ≤ x ∧ x ≤ 100 := by
  intro x hx
  simp only [studentSpacing_scores, List.mem_flatMap] at hx
  obtain ⟨s, -, hx⟩ := hx
  split at hx
  · simp at hx
  · simp only [List.mem_map] at hx
    obtain ⟨g, -, rfl⟩ := hx
    refine ite_bounds (by norm_num) (ite_bounds (by norm_num) (by norm_num))

theorem maxExamsPerSlot_scores_bounds (p : SchedulingProblem) (time room : Nat → Nat) :
    ∀ x ∈ maxExamsPerSlot_scores p time room, 0 ≤ x ∧ x ≤ 100 := by
  intro x hx
  simp only [maxExamsPerSlot_scores, List.mem_map] at hx
  obtain ⟨t, -, rfl⟩ := hx
  by_cases hc : ((List.range p.number_of_exams).map time).count t ≤ 3
  · simp only [hc, if_true]
    norm_num
  · simp only [hc, if_false]
    refine penalty_bounds ?_
    have h3 : (3 : ℚ) ≤ ((List.range p.number_of_exams).map time).count t := by
      have := Nat.le_of_lt (Nat.lt_of_not_le hc)
      exact_mod_cast this
    nlinarith

theorem morningSessions_scores_bounds (p : SchedulingProblem) (time room : Nat → Nat) :
    ∀ x ∈ morningSessions_scores p time room, 0 ≤ x ∧ x ≤ 100 := by
  intro x hx
  simp only [morningSessions_scores, List.mem_filterMap] at hx
  obtain ⟨e, -, he⟩ := hx
  split at he
  · rw [Option.some_inj] at he
    subst he
    exact ite_bounds (by norm_num) (by norm_num)
  · exact absurd he (by simp)

theorem examGroupSize_scores_bounds (p : SchedulingProblem) (time room : Nat → Nat) :
    ∀ x ∈ examGroupSize_scores p time room, 0 ≤ x ∧ x ≤ 100 := by
  intro x hx
  simp only [examGroupSize_scores, List.mem_filterMap] at hx
  obtain ⟨pr, -, hpr⟩ := hx
  split at hpr
  · simp only [Option.some_inj] at hpr
    subst hpr
    by_cases h1 : ((time pr.1 : Int) - (time pr.2 : Int)).natAbs = 1
    · simp only [h1, if_true]
      norm_num
    · simp only [h1, if_false]
      by_cases h0 : ((time pr.1 : Int) - (time pr.2 : Int)).natAbs = 0
      · simp only [h0, if_true]
        norm_num
      · simp only [h0, if_false]
        refine penalty_bounds ?_
        have hge : 1 ≤ ((time pr.1 : Int) - (time pr.2 : Int)).natAbs := by omega
        have hq : (1 : ℚ) ≤ (((time pr.1 : Int) - (time pr.2 : Int)).natAbs : ℚ) := by
          exact_mod_cast hge
        nlinarith
  · simp at hpr

theorem departmentGrouping_scores_bounds (p : SchedulingProblem) (time room : Nat → Nat) :
    ∀ x ∈ departmentGrouping_scores p time room, 0 ≤ x ∧ x ≤ 100 := by
  intro x hx
  simp only [departmentGrouping_scores, List.mem_flatMap, List.mem_filterMap] at hx
  obtain ⟨t, -, pr, -, hpr⟩ := hx
  split at hpr
  · simp only [Option.some_inj] at hpr
    subst hpr
    refine penalty_bounds ?_
    positivity
  · simp at hpr

theorem invigAssignment_scoresFor_bounds (inv : Invigilator) (slots : List Nat) :
    ∀ x ∈ invigAssignment_scoresFor inv slots, 0 ≤ x ∧ x ≤ 100 := by
  intro x hx
  simp only [invigAssignment_scoresFor, List.mem_append] at hx
  rcases hx with (hx | hx) | hx
  · split at hx
    · simp only [List.mem_singleton] at hx
      subst hx
      refine penalty_bounds ?_
      positivity
    · simp only [List.mem_singleton] at hx
      subst hx
      norm_num
  · simp only [List.mem_filterMap] at hx
    obtain ⟨s, -, hs⟩ := hx
    split at hs
    · simp only [Option.some_inj] at hs
      subst hs
      norm_num
    · simp at hs
  · simp only [List.mem_map] at hx
    obtain ⟨g, -, rfl⟩ := hx
    exact ite_bounds (by norm_num) (by norm_num)

theorem invigilatorAssignment_scores_bounds (p : SchedulingProblem)
    (time room : Nat → Nat) (invigs : List Invigilator) :
    ∀ x ∈ invigilatorAssignment_scores p time room invigs, 0 ≤ x ∧ x ≤ 100 := by
  intro x hx
  simp only [invigilatorAssignment_scores, List.mem_flatMap] at hx
  obtain ⟨i, -, hx⟩ := hx
  exact invigAssignment_scoresFor_bounds _ _ x hx

theorem breakPeriod_scores_bounds (p : SchedulingProblem) (time room : Nat → Nat) :
    ∀ x ∈ breakPeriod_scores p time room, 0 ≤ x ∧ x ≤ 100 := by
  intro x hx
  simp only [breakPeriod_scores, List.mem_filterMap] at hx
  obtain ⟨e, -, he⟩ := hx
  split at he
  · split at he
    · split at he
      · rw [Option.some_inj] at he
        subst he
        exact ite_bounds (by norm_num) (by norm_num)
      · exact absurd he (by simp)
    · exact absurd he (by simp)
  · exact absurd he (by simp)

theorem invigilatorBreak_scores_bounds (p : SchedulingProblem)
    (time room : Nat → Nat) (n : Nat) :
    ∀ x ∈ invigilatorBreak_scores p time room n, 0 ≤ x ∧ x ≤ 100 := by
  intro x hx
  simp only [invigilatorBreak_scores, List.mem_flatMap] at hx
  obtain ⟨i, -, hx⟩ := hx
  split at hx
  · simp at hx
  · simp only [List.mem_map] at hx
    obtain ⟨g, -, rfl⟩ := hx
    exact ite_bounds (by norm_num) (by norm_num)

/-!
Claim theorems.
-/

/-- C1: for every constraint in the catalog, every problem and every
syntactically valid assignment (each assigned room in `[0, R)` and slot in
`[0, T)`), `evaluate_metric` returns a score `s` with `0 ≤ s ≤ 100`. -/
theorem C1_evaluator_range (c : ConstraintName) (p : SchedulingProblem)
    (time room : Nat → Nat) (_hv : ValidAssignment p time room) :
    0 ≤ evaluateMetric c p time room ∧ evaluateMetric c p time room ≤ 100 := by
  cases c
  case single_assignment =>
    exact pyAvg_bounds (singleAssignment_scores_bounds p time room) le_rfl (by norm_num)
  case room_conflicts =>
    exact pyAvg_bounds (roomConflicts_scores_bounds p time room) (by norm_num) le_rfl
  case room_capacity =>
    exact pyAvg_bounds (roomCapacity_scores_bounds p time room) le_rfl (by norm_num)
  case student_spacing =>
    exact pyAvg_bounds (studentSpacing_scores_bounds p time room) (by norm_num) le_rfl
  case max_exams_per_slot =>
    exact pyAvg_bounds (maxExamsPerSlot_scores_bounds p time room) (by norm_num) le_rfl
  case morning_sessions =>
    exact pyAvg_bounds (morningSessions_scores_bounds p time room) (by norm_num) le_rfl
  case exam_group_size =>
    exact pyAvg_bounds (examGroupSize_scores_bounds p time room) (by norm_num) le_rfl
  case department_grouping =>
    exact pyAvg_bounds (departmentGrouping_scores_bounds p time room) (by norm_num) le_rfl
  case room_balancing =>
    show 0 ≤ roomBalancing_evaluate p time room ∧ roomBalancing_evaluate p time room ≤ 100
    simp only [roomBalancing_evaluate]
    split
    · norm_num
    · refine penalty_bounds ?_
      refine mul_nonneg (foldr_max_nonneg _) (by norm_num)
  case invigilator_assignment =>
    show 0 ≤ invigilatorAssignment_evaluate p time room ∧
      invigilatorAssignment_evaluate p time room ≤ 100
    unfold invigilatorAssignment_evaluate
    split
    · norm_num
    · norm_num
    · exact pyAvg_bounds (invigilatorAssignment_scores_bounds p time room _)
        (by norm_num) le_rfl
  case break_period =>
    exact pyAvg_bounds (breakPeriod_scores_bounds p time room) (by norm_num) le_rfl
  case invigilator_break =>
    show 0 ≤ invigilatorBreak_evaluate p time room ∧
      invigilatorBreak_evaluate p time room ≤ 100
    unfold invigilatorBreak_evaluate
    split
    · norm_num
    · norm_num
    · exact pyAvg_bounds (invigilatorBreak_scores_bounds p time room _)
        (by norm_num) le_rfl

/-- Witness for C1 at the S5 instance and the room-capacity constraint. -/
theorem C1_evaluator_range_witness :
    ValidAssignment problemS5 timeS5 roomS5 ∧
    (0 ≤ evaluateMetric .room_capacity problemS5 timeS5 roomS5 ∧
      evaluateMetric .room_capacity problemS5 timeS5 roomS5 ≤ 100) := by
  have hv : ValidAssignment problemS5 timeS5 roomS5 := by
    intro e he
    constructor <;>
      norm_num [problemS5, timeS5, roomS5, SchedulingProblem.number_of_rooms]
  exact ⟨hv, C1_evaluator_range .room_capacity problemS5 timeS5 roomS5 hv⟩

/-- C2 counterexample: on a problem whose only room has capacity zero and a
syntactically valid assignment, the room-capacity evaluation collects no
applicable scored item, yet `evaluate_metric` returns 0, not 100. -/
theorem C2_no_applicable_counterexample :
    roomCapacity_scores problemZeroCap timeS5 roomS5 = [] ∧
    ValidAssignment problemZeroCap timeS5 roomS5 ∧
    roomCapacity_evaluate problemZeroCap timeS5 roomS5 = 0 ∧
    roomCapacity_evaluate problemZeroCap timeS5 roomS5 ≠ 100 := by
  refine ⟨rfl, ?_, rfl, ?_⟩
  · intro e he
    constructor <;>
      norm_num [problemZeroCap, timeS5, roomS5, SchedulingProblem.number_of_rooms]
  · intro h
    rw [show roomCapacity_evaluate problemZeroCap timeS5 roomS5 = 0 from rfl] at h
    norm_num at h

/-- C2 amended: when an evaluation collects no applicable scored items the
evaluators return 100, except `SingleAssignmentConstraint`,
`RoomCapacityConstraint` and `RoomBalancingConstraint`, whose empty-case
defaults are 0. -/
theorem C2_empty_default_amended (p : SchedulingProblem) (time room : Nat → Nat) :
    (singleAssignment_scores p time room = [] → singleAssignment_evaluate p time room = 0) ∧
    (roomCapacity_scores p time room = [] → roomCapacity_evaluate p time room = 0) ∧
    (roomBalancing_usage p room = [] → roomBalancing_evaluate p time room = 0) ∧
    (roomConflicts_scores p time room = [] → roomConflicts_evaluate p time room = 100) ∧
    (studentSpacing_scores p time room = [] → studentSpacing_evaluate p time room = 100) ∧
    (maxExamsPerSlot_scores p time room = [] → maxExamsPerSlot_evaluate p time room = 100) ∧
    (morningSessions_scores p time room = [] → morningSessions_evaluate p time room = 100) ∧
    (examGroupSize_scores p time room = [] → examGroupSize_evaluate p time room = 100) ∧
    (departmentGrouping_scores p time room = [] →
      departmentGrouping_evaluate p time room = 100) ∧
    (breakPeriod_scores p time room = [] → breakPeriod_evaluate p time room = 100) ∧
    (∀ invigs, p.invigilators = some invigs →
      invigilatorAssignment_scores p time room invigs = [] →
      invigilatorAssignment_evaluate p time room = 100) ∧
    (∀ invigs, p.invigilators = some invigs →
      invigilatorBreak_scores p time room invigs.length = [] →
      invigilatorBreak_evaluate p time room = 100) := by
  refine ⟨?_, ?_, ?_, ?_, ?_, ?_, ?_, ?_, ?_, ?_, ?_, ?_⟩
  · intro h
    simp [singleAssignment_evaluate, h, pyAvg]
  · intro h
    simp [roomCapacity_evaluate, h, pyAvg]
  · intro h
    simp [roomBalancing_evaluate, h]
  · intro h
    simp [roomConflicts_evaluate, h, pyAvg]
  · intro h
    simp [studentSpacing_evaluate, h, pyAvg]
  · intro h
    simp [maxExamsPerSlot_evaluate, h, pyAvg]
  · intro h
    simp [morningSessions_evaluate, h, pyAvg]
  · intro h
    simp [examGroupSize_evaluate, h, pyAvg]
  · intro h
    simp [departmentGrouping_evaluate, h, pyAvg]
  · intro h
    simp [breakPeriod_evaluate, h, pyAvg]
  · intro invigs h1 h2
    rcases invigs with - | ⟨i0, rest⟩
    · simp [invigilatorAssignment_evaluate, h1]
    · simp [invigilatorAssignment_evaluate, h1, h2, pyAvg]
  · intro invigs h1 h2
    rcases invigs with - | ⟨i0, rest⟩
    · simp [invigilatorBreak_evaluate, h1]
    · have h2a : invigilatorBreak_scores p time room (rest.length + 1) = [] := by
        simpa using h2
      simp [invigilatorBreak_evaluate, h1, pyAvg, h2a]

/-- Witness for the amended C2 at a problem with no exams and one
invigilator, where every evaluation collects no applicable items. -/
theorem C2_empty_default_amended_witness :
    singleAssignment_evaluate problemInvigNoExams timeS5 roomS5 = 0 ∧
    roomCapacity_evaluate problemInvigNoExams timeS5 roomS5 = 0 ∧
    roomBalancing_evaluate problemInvigNoExams timeS5 roomS5 = 0 ∧
    roomConflicts_evaluate problemInvigNoExams timeS5 roomS5 = 100 ∧
    studentSpacing_evaluate problemInvigNoExams timeS5 roomS5 = 100 ∧
    maxExamsPerSlot_evaluate problemInvigNoExams timeS5 roomS5 = 100 ∧
    morningSessions_evaluate problemInvigNoExams timeS5 roomS5 = 100 ∧
    examGroupSize_evaluate problemInvigNoExams timeS5 roomS5 = 100 ∧
    departmentGrouping_evaluate problemInvigNoExams timeS5 roomS5 = 100 ∧
    breakPeriod_evaluate problemInvigNoExams timeS5 roomS5 = 100 ∧
    invigilatorAssignment_evaluate problemInvigNoExams timeS5 roomS5 = 100 ∧
    invigilatorBreak_evaluate problemInvigNoExams timeS5 roomS5 = 100 := by
  obtain ⟨h1, h2, h3, h4, h5, h6, h7, h8, h9, h10, h11, h12⟩ :=
    C2_empty_default_amended problemInvigNoExams timeS5 roomS5
  exact ⟨h1 rfl, h2 rfl, h3 rfl, h4 rfl, h5 rfl, h6 rfl, h7 rfl, h8 rfl,
    h9 rfl, h10 rfl, h11 _ rfl rfl, h12 _ rfl rfl⟩

/-- C9: on the S5 instance (two rooms of capacity 10, two slots, one exam
with eight students, exam 0 placed in room 0 at slot 0) the five default
evaluators return exactly 80, 100, 100, 100, 100. -/
theorem C9_s5_scoring :
    evaluateMetric .room_capacity problemS5 timeS5 roomS5 = 80 ∧
    evaluateMetric .room_conflicts problemS5 timeS5 roomS5 = 100 ∧
    evaluateMetric .single_assignment problemS5 timeS5 roomS5 = 100 ∧
    evaluateMetric .student_spacing problemS5 timeS5 roomS5 = 100 ∧
    evaluateMetric .max_exams_per_slot problemS5 timeS5 roomS5 = 100 := by
  refine ⟨?_, ?_, ?_, ?_, ?_⟩
  · have hs : roomCapacity_scores problemS5 timeS5 roomS5 = [80] := by
      simp [roomCapacity_scores, problemS5, timeS5, roomS5,
        SchedulingProblem.number_of_exams, List.range_succ, defaultExam, defaultRoom,
        Exam.get_student_count]
      norm_num
    show roomCapacity_evaluate problemS5 timeS5 roomS5 = 80
    rw [roomCapacity_evaluate, hs]
    norm_num [pyAvg]
  · have hs : roomConflicts_scores problemS5 timeS5 roomS5 = [100] := by
      simp [roomConflicts_scores, problemS5, timeS5, roomS5,
        SchedulingProblem.number_of_exams, List.range_succ]
    show roomConflicts_evaluate problemS5 timeS5 roomS5 = 100
    rw [roomConflicts_evaluate, hs]
    norm_num [pyAvg]
  · have hs : singleAssignment_scores problemS5 timeS5 roomS5 = [100] := by
      simp [singleAssignment_scores, problemS5, SchedulingProblem.number_of_exams,
        List.range_succ]
    show singleAssignment_evaluate problemS5 timeS5 roomS5 = 100
    rw [singleAssignment_evaluate, hs]
    norm_num [pyAvg]
  · have hs : studentSpacing_scores problemS5 timeS5 roomS5 = [] := by
      simp [studentSpacing_scores, problemS5, timeS5,
        SchedulingProblem.number_of_exams, List.range_succ, sortNat, insortNat,
        consecPairs]
    show studentSpacing_evaluate problemS5 timeS5 roomS5 = 100
    rw [studentSpacing_evaluate, hs]
    norm_num [pyAvg]
  · have hs : maxExamsPerSlot_scores problemS5 timeS5 roomS5 = [100] := by
      simp [maxExamsPerSlot_scores, problemS5, timeS5,
        SchedulingProblem.number_of_exams, List.range_succ]
    show maxExamsPerSlot_evaluate problemS5 timeS5 roomS5 = 100
    rw [maxExamsPerSlot_evaluate, hs]
    norm_num [pyAvg]

/-- C4 counterexample: `ZThreeSolver.solve` has no exception handler, so a
backend exception propagates; `CBCSolver.solve` and `TabuSearchSolver.solve`
turn a backend exception into `None` — exactly the value they return for
UNSAT — with no message in the returned value. -/
theorem C4_backend_exception_counterexample :
    zthreeSolve problemS5 (.raises "boom") = .error "boom" ∧
    cbcSolve problemS5 (.raises "boom") = .ok none ∧
    cbcSolve problemS5 (.raises "boom") =
      cbcSolve problemS5 (.solved (-1) (fun _ _ _ => false)) ∧
    tabuSolve (.raises "boom") = .ok none ∧
    tabuSolve (.raises "boom") = tabuSolve (.finished [] 1) := by
  refine ⟨rfl, rfl, rfl, rfl, ?_⟩
  simp [tabuSolve]

/-- C4 amended: on a backend exception, `CBCSolver.solve` and
`TabuSearchSolver.solve` return `None` (the value also used for UNSAT)
after printing the message, while `ZThreeSolver.solve` propagates the
exception; no adapter returns a distinguished error value. -/
theorem C4_backend_exception_amended (p : SchedulingProblem) (msg : String)
    (status : Int) (hstatus : status < 0) (val : Nat → Nat → Nat → Bool) :
    cbcSolve p (.raises msg) = .ok none ∧
    cbcSolve p (.solved status val) = .ok none ∧
    tabuSolve (.raises msg) = .ok none ∧
    zthreeSolve p (.raises msg) = .error msg := by
  refine ⟨rfl, ?_, rfl, rfl⟩
  have hneg : ¬ (0 ≤ status) := by omega
  simp [cbcSolve, hneg]

/-- Witness for the amended C4 at a concrete failing backend. -/
theorem C4_backend_exception_amended_witness :
    ((-1 : Int) < 0) ∧
    (cbcSolve problemS5 (.raises "division by zero") = .ok none ∧
     cbcSolve problemS5 (.solved (-1) (fun _ _ _ => false)) = .ok none ∧
     tabuSolve (.raises "division by zero") = .ok none ∧
     zthreeSolve problemS5 (.raises "division by zero") = .error "division by zero") :=
  ⟨by norm_num,
   C4_backend_exception_amended problemS5 "division by zero" (-1) (by norm_num)
     (fun _ _ _ => false)⟩

/-- C6 counterexample: on the S5 problem (T = 2), the catalog's MIP-style
encoders do not all use the big-M constant T + 1 = 3 — among others,
`RoomCapacityConstraint.apply_cbc` in `src/constraints.py` uses the bare
literal 1000. -/
theorem C6_bigM_counterexample :
    ¬ (∀ m ∈ bigM_all problemS5, m = (problemS5.number_of_slots : Int) + 1) := by
  decide

/-- C6 amended: the big-M constants are `T + 1` in every MIP-style encoder
except `RoomCapacityConstraint.apply_cbc` and
`MaxExamsPerSlotConstraint.apply_cbc` of `src/constraints.py` (bare 1000),
`ExamGroupSizeOptimizationConstraint.apply_gurobi`/`apply_cbc` (`T`), and
the invigilator-indicator link of `InvigilatorAssignmentConstraint`
(`number_of_invigilators`). -/
theorem C6_bigM_amended (p : SchedulingProblem) :
    (∀ m ∈ bigM_conforming p, m = (p.number_of_slots : Int) + 1) ∧
    bigM_examGroupSize_mip p = [(p.number_of_slots : Int)] ∧
    bigM_roomCapacity_cbc_constraintsPy p = [1000, 1000] ∧
    bigM_maxExamsPerSlot_cbc_constraintsPy p = [1000, 1000] ∧
    (bigM_invigilatorAssignment_mip p).head? =
      some (p.number_of_invigilators : Int) := by
  refine ⟨?_, rfl, rfl, rfl, rfl⟩
  intro m hm
  simp only [bigM_conforming, bigM_roomConflicts_mip, bigM_roomCapacity_gurobi,
    bigM_roomCapacity_cbc_conditioning, bigM_studentSpacing_mip,
    bigM_maxExamsPerSlot_gurobi, bigM_maxExamsPerSlot_cbc_conditioning,
    bigM_departmentGrouping_mip, bigM_roomBalancing_mip,
    bigM_invigilatorAssignment_mip, bigM_breakPeriod_gurobi,
    List.drop, List.mem_append, List.mem_cons, List.mem_singleton,
    List.not_mem_nil, or_false] at hm
  tauto

/-- Witness for the amended C6 at the S5 problem. -/
theorem C6_bigM_amended_witness :
    ((3 : Int) ∈ bigM_conforming problemS5) ∧
    (3 : Int) = (problemS5.number_of_slots : Int) + 1 :=
  ⟨by decide, (C6_bigM_amended problemS5).1 3 (by decide)⟩

/-- C7 counterexample: the factory registry contains only z3, ortools,
gurobi and cbc; the catalogued name "tabu" is rejected with the
unknown-solver error instead of yielding an adapter. -/
theorem C7_factory_counterexample :
    factoryGetSolver "tabu" problemS5 = .error "Unknown solver: tabu" ∧
    factorySolvers.lookup "tabu" = none := by
  exact ⟨rfl, rfl⟩

/-- C7 amended: the factory returns a constructed adapter exactly for the
four registered names z3, ortools, gurobi and cbc, and fails with
`ValueError("Unknown solver: ...")` naming the key for every other name
(including deap, tabu, local and scip). -/
theorem C7_factory_amended (name : String) (p : SchedulingProblem) :
    (factoryGetSolver "z3" p = .ok { kind := .z3, problem := p } ∧
     factoryGetSolver "ortools" p = .ok { kind := .ortools, problem := p } ∧
     factoryGetSolver "gurobi" p = .ok { kind := .gurobi, problem := p } ∧
     factoryGetSolver "cbc" p = .ok { kind := .cbc, problem := p }) ∧
    (name ∉ ["z3", "ortools", "gurobi", "cbc"] →
      factoryGetSolver name p = .error ("Unknown solver: " ++ name)) := by
  refine ⟨⟨rfl, rfl, rfl, rfl⟩, ?_⟩
  intro hn
  have h1 : (name == "z3") = false := beq_eq_false_iff_ne.mpr (fun h => hn (by simp [h]))
  have h2 : (name == "ortools") = false :=
    beq_eq_false_iff_ne.mpr (fun h => hn (by simp [h]))
  have h3 : (name == "gurobi") = false :=
    beq_eq_false_iff_ne.mpr (fun h => hn (by simp [h]))
  have h4 : (name == "cbc") = false := beq_eq_false_iff_ne.mpr (fun h => hn (by simp [h]))
  simp [factoryGetSolver, factorySolvers, List.lookup, h1, h2, h3, h4]

/-- Witness for the amended C7 at the unregistered name "scip". -/
theorem C7_factory_amended_witness :
    ("scip" ∉ ["z3", "ortools", "gurobi", "cbc"]) ∧
    factoryGetSolver "scip" problemS5 = .error "Unknown solver: scip" :=
  ⟨by decide, (C7_factory_amended "scip" problemS5).2 (by decide)⟩

/-- C8 counterexample: an adapter constructed with an explicitly empty
active-constraints list registers no constraints at all, which differs from
the default constraint set. -/
theorem C8_empty_active_counterexample :
    solverSelectedConstraints (some []) = [] ∧
    solverSelectedConstraints (some []) ≠
      [.single_assignment, .room_conflicts, .room_capacity,
       .student_spacing, .max_exams_per_slot] := by
  decide

/-- C8 amended: the adapter constructors fall back to the default
constraint set only when no list is supplied (`None`); an empty list makes
`solve` apply no constraints. -/
theorem C8_default_selection_amended :
    solverSelectedConstraints none =
      [.single_assignment, .room_conflicts, .room_capacity,
       .student_spacing, .max_exams_per_slot] ∧
    solverSelectedConstraints (some []) = [] := by
  decide

/-- C10: every per-metric value reported by the comparison pipeline is at
least 1.0: each evaluator result `v` is replaced by `max(v, 1.0)` and a
metric that fails to compute (`None`) by 50.0. -/
theorem C10_metric_floor :
    (∀ (p : SchedulingProblem) (time room : Nat → Nat) (active : List String),
      ∀ kv ∈ calculateMetrics p time room active, 1 ≤ kv.2) ∧
    (∀ v : ℚ, postMetric (some v) = max v 1) ∧
    postMetric none = 50 := by
  refine ⟨?_, fun v => rfl, rfl⟩
  intro p time room active kv hkv
  simp only [calculateMetrics, List.mem_filterMap] at hkv
  obtain ⟨s, -, hs⟩ := hkv
  rcases hc : constraintOfName s with - | c
  · rw [hc] at hs
    exact absurd hs (by simp)
  · rw [hc] at hs
    simp only [Option.map_some', Option.some_inj] at hs
    subst hs
    exact le_max_right _ _

/-- Witness for C10: the zero-capacity instance makes the room-capacity
evaluator return 0, yet the reported metric is 1. -/
theorem C10_metric_floor_witness :
    ((ConstraintName.room_capacity,
        postMetric (some (evaluateMetric .room_capacity problemZeroCap timeS5 roomS5))) ∈
      calculateMetrics problemZeroCap timeS5 roomS5 ["room_capacity"]) ∧
    1 ≤ postMetric (some (evaluateMetric .room_capacity problemZeroCap timeS5 roomS5)) ∧
    evaluateMetric .room_capacity problemZeroCap timeS5 roomS5 = 0 ∧
    postMetric (some (evaluateMetric .room_capacity problemZeroCap timeS5 roomS5)) = 1 := by
  have hm : (ConstraintName.room_capacity,
      postMetric (some (evaluateMetric .room_capacity problemZeroCap timeS5 roomS5))) ∈
        calculateMetrics problemZeroCap timeS5 roomS5 ["room_capacity"] := by
    simp [calculateMetrics, constraintOfName]
  refine ⟨hm,
    C10_metric_floor.1 problemZeroCap timeS5 roomS5 ["room_capacity"] _ hm, rfl, ?_⟩
  rw [show evaluateMetric .room_capacity problemZeroCap timeS5 roomS5 = 0 from rfl]
  simp [postMetric]

/-- C3 counterexample: the ingester accepts a file that declares one
student while enrolling student id 5, producing a problem with
`total_students = 1 < 1 + 5`. -/
theorem C3_ingester_counterexample :
    read_file badInstanceLines = some problemBad ∧
    (({ id := 0, students := {5} } : Exam) ∈ problemBad.exams) ∧
    ((5 : Nat) ∈ ({ id := 0, students := {5} } : Exam).students) ∧
    problemBad.total_students < 5 + 1 := by
  decide

/-- C5 counterexample: with one active constraint scoring 100 on both
sides and times 1 ms and 2 ms, the comparator's overall quality is 8507.5,
not `0.85·S + 0.15·TimeScore = 92.5`: the weighted mean is multiplied by a
stray factor of 100 before the blend. -/
theorem C5_overall_quality_counterexample :
    (determineOverallScores metricsAll100 metricsAll100 1 2 ["single_assignment"]).1 =
      8507.5 ∧
    spec_Final (spec_S metricsAll100 metricsAll100 ["single_assignment"] 0)
      (spec_TimeScore 1 2) = 92.5 ∧
    (determineOverallScores metricsAll100 metricsAll100 1 2 ["single_assignment"]).1 ≠
      spec_Final (spec_S metricsAll100 metricsAll100 ["single_assignment"] 0)
        (spec_TimeScore 1 2) := by
  have hq : qualityAccum metricsAll100 metricsAll100 ["single_assignment"] =
      (15, 15, 15 / 100) := by
    norm_num [qualityAccum, constraintOfName, qualityWeight, metricsAll100]
  have h1 : (determineOverallScores metricsAll100 metricsAll100 1 2
      ["single_assignment"]).1 = 8507.5 := by
    rw [determineOverallScores, hq]
    norm_num [max_def]
  have h2 : spec_Final (spec_S metricsAll100 metricsAll100 ["single_assignment"] 0)
      (spec_TimeScore 1 2) = 92.5 := by
    rw [spec_Final, spec_S, spec_TimeScore, hq]
    norm_num [max_def]
  refine ⟨h1, h2, ?_⟩
  rw [h1, h2]
  norm_num

/-- C5 amended: when the active weights sum is positive and at least one
elapsed time is positive, each side's overall quality equals
`0.85·(100·S) + 0.15·TimeScore` (the weighted mean inflated by 100), with
`S` the weighted mean over the active constraints that carry a weight and
appear in both metric maps; the overall result is a tie exactly when the
two quality scores differ by less than 1.0. -/
theorem C5_overall_quality_amended (m1 m2 : ConstraintName → Option ℚ)
    (t1 t2 : ℚ) (active : List String)
    (hw : 0 < (qualityAccum m1 m2 active).2.2)
    (ht : 0 < max t1 t2) :
    (determineOverallScores m1 m2 t1 t2 active).1 =
      (85 / 100) * (100 * spec_S m1 m2 active 0) + (15 / 100) * spec_TimeScore t1 t2 ∧
    (determineOverallScores m1 m2 t1 t2 active).2 =
      (85 / 100) * (100 * spec_S m1 m2 active 1) + (15 / 100) * spec_TimeScore t2 t1 ∧
    (overallTie m1 m2 t1 t2 active = true ↔
      |(determineOverallScores m1 m2 t1 t2 active).1 -
        (determineOverallScores m1 m2 t1 t2 active).2| < 1) := by
  refine ⟨?_, ?_, ?_⟩
  · simp only [determineOverallScores, spec_S, spec_TimeScore, hw, ht, if_true]
    norm_num
    ring
  · have ht2 : 0 < max t2 t1 := by rw [max_comm]; exact ht
    simp only [determineOverallScores, spec_S, spec_TimeScore, hw, ht, if_true]
    rw [max_comm t2 t1]
    norm_num
    ring
  · simp only [overallTie, decide_eq_true_eq]

/-- Witness for the amended C5 at the counterexample input. -/
theorem C5_overall_quality_amended_witness :
    (0 < (qualityAccum metricsAll100 metricsAll100 ["single_assignment"]).2.2) ∧
    (0 < max (1 : ℚ) 2) ∧
    ((determineOverallScores metricsAll100 metricsAll100 1 2 ["single_assignment"]).1 =
      (85 / 100) * (100 * spec_S metricsAll100 metricsAll100 ["single_assignment"] 0) +
        (15 / 100) * spec_TimeScore 1 2) := by
  have hw : 0 < (qualityAccum metricsAll100 metricsAll100 ["single_assignment"]).2.2 := by
    norm_num [qualityAccum, constraintOfName, qualityWeight, metricsAll100]
  have ht : 0 < max (1 : ℚ) 2 := by norm_num [max_def]
  exact ⟨hw, ht,
    (C5_overall_quality_amended metricsAll100 metricsAll100 1 2 ["single_assignment"]
      hw ht).1⟩

/-- A line consumed after `read_attribute` leaves a suffix of the file. -/
theorem readAttr_mem {name : String} {ls ls2 : List String} {v : Nat}
    (h : readAttr name ls = some (v, ls2)) : ∀ l ∈ ls2, l ∈ ls := by
  cases ls with
  | nil => exact absurd h (by simp [readAttr])
  | cons a t =>
    intro l hl
    simp only [readAttr] at h
    split at h
    · rw [Option.some_inj] at h
      have h2 : t = ls2 := congrArg Prod.snd h
      subst h2
      exact List.mem_cons_of_mem a hl
    · exact absurd h (by simp)

/-- The room-capacity loop also leaves a suffix of the file. -/
theorem readRooms_mem :
    ∀ {count idx : Nat} {ls ls2 : List String} {rooms : List Room},
      readRooms idx count ls = some (rooms, ls2) → ∀ l ∈ ls2, l ∈ ls := by
  intro count
  induction count with
  | zero =>
    intro idx ls ls2 rooms h l hl
    simp only [readRooms, Option.some_inj] at h
    have h2 : ls = ls2 := congrArg Prod.snd h
    subst h2
    exact hl
  | succ c ih =>
    intro idx ls ls2 rooms h l hl
    simp only [readRooms] at h
    split at h
    · exact absurd h (by simp)
    · rename_i cap lsA hattr
      split at h
      · exact absurd h (by simp)
      · rename_i roomsA lsB hrec
        rw [Option.some_inj] at h
        have h2 : lsB = ls2 := congrArg Prod.snd h
        subst h2
        exact readAttr_mem hattr l (ih hrec l hl)

/-- Any student recorded by `addEnrollment` is either the inserted student
or was already present. -/
theorem addEnrollment_studentIn {examId sid s : Nat} {acc : List (Nat × Finset Nat)}
    (h : studentIn s (addEnrollment examId sid acc)) :
    s = sid ∨ studentIn s acc := by
  induction acc with
  | nil =>
    simp only [addEnrollment, studentIn, List.mem_singleton] at h
    obtain ⟨kv, rfl, hs⟩ := h
    left
    simpa using hs
  | cons kv rest ih =>
    obtain ⟨k, st⟩ := kv
    simp only [addEnrollment] at h
    split at h
    · obtain ⟨kv2, hmem, hs⟩ := h
      rcases List.mem_cons.mp hmem with rfl | hmem2
      · rcases Finset.mem_insert.mp hs with rfl | hst
        · exact Or.inl rfl
        · exact Or.inr ⟨(k, st), List.mem_cons_self _ _, hst⟩
      · exact Or.inr ⟨kv2, List.mem_cons_of_mem _ hmem2, hs⟩
    · obtain ⟨kv2, hmem, hs⟩ := h
      rcases List.mem_cons.mp hmem with rfl | hmem2
      · exact Or.inr ⟨(k, st), List.mem_cons_self _ _, hs⟩
      · rcases ih ⟨kv2, hmem2, hs⟩ with h1 | h2
        · exact Or.inl h1
        · obtain ⟨kv3, hm3, hs3⟩ := h2
          exact Or.inr ⟨kv3, List.mem_cons_of_mem _ hm3, hs3⟩

/-- Every student recorded by the enrollment loop comes from the initial
accumulator or from a successfully parsed enrollment line. -/
theorem readEnrollments_sound :
    ∀ (ls : List String) (acc res : List (Nat × Finset Nat)),
      readEnrollments ls acc = some res → ∀ s : Nat, studentIn s res →
      studentIn s acc ∨
        ∃ l ∈ ls, ∃ pr : Nat × Nat, parseEnrollmentLine l = some pr ∧ pr.2 = s := by
  intro ls
  induction ls with
  | nil =>
    intro acc res h s hs
    simp only [readEnrollments, Option.some_inj] at h
    subst h
    exact Or.inl hs
  | cons l ls ih =>
    intro acc res h s hs
    simp only [readEnrollments] at h
    split at h
    · rcases ih acc res h s hs with h1 | ⟨l2, hl2, pr, hpr, hs2⟩
      · exact Or.inl h1
      · exact Or.inr ⟨l2, List.mem_cons_of_mem _ hl2, pr, hpr, hs2⟩
    · split at h
      · rename_i pr hpr
        rcases ih _ res h s hs with h1 | ⟨l2, hl2, pr2, hpr2, hs2⟩
        · rcases addEnrollment_studentIn h1 with heq | h2
          · exact Or.inr ⟨l, List.mem_cons_self _ _, pr, hpr, heq.symm⟩
          · exact Or.inl h2
        · exact Or.inr ⟨l2, List.mem_cons_of_mem _ hl2, pr2, hpr2, hs2⟩
      · exact absurd h (by simp)

/-- C3 amended: the ingester does not validate student ids against the
declared student count, so the invariant holds exactly for the files whose
enrollment lines only mention student ids below the declared count. -/
theorem C3_ingester_amended (lines : List String) (p : SchedulingProblem)
    (hp : read_file lines = some p)
    (hids : ∀ l ∈ lines, ∀ pr ∈ parseEnrollmentLine l, pr.2 < p.total_students) :
    ∀ ex ∈ p.exams, ∀ s ∈ ex.students, s + 1 ≤ p.total_students := by
  intro ex hex s hs
  simp only [read_file] at hp
  split at hp
  · exact absurd hp (by simp)
  · rename_i numStudents ls1 hattr1
    split at hp
    · exact absurd hp (by simp)
    · rename_i numExams ls2 hattr2
      split at hp
      · exact absurd hp (by simp)
      · rename_i numSlots ls3 hattr3
        split at hp
        · exact absurd hp (by simp)
        · rename_i numRooms ls4 hattr4
          split at hp
          · exact absurd hp (by simp)
          · rename_i rooms0 ls5 hrooms
            split at hp
            · exact absurd hp (by simp)
            · rename_i examStudents henr
              rw [Option.some_inj] at hp
              subst hp
              dsimp only at hex hs hids ⊢
              simp only [List.mem_map] at hex
              obtain ⟨kv, hkv, rfl⟩ := hex
              dsimp only at hs
              have hstu : studentIn s examStudents := ⟨kv, hkv, hs⟩
              rcases readEnrollments_sound ls5 [] examStudents henr s hstu with
                h1 | ⟨l, hl, pr, hpr, hs2⟩
              · simp [studentIn] at h1
              · subst hs2
                have hl4 : l ∈ ls4 := readRooms_mem hrooms l hl
                have hl3 : l ∈ ls3 := readAttr_mem hattr4 l hl4
                have hl2 : l ∈ ls2 := readAttr_mem hattr3 l hl3
                have hl1 : l ∈ ls1 := readAttr_mem hattr2 l hl2
                have hl0 : l ∈ lines := readAttr_mem hattr1 l hl1
                have hlt := hids l hl0 pr (by simp [Option.mem_def, hpr])
                omega

/-- Witness for the amended C3 at a well-formed two-student instance. -/
theorem C3_ingester_amended_witness :
    read_file goodInstanceLines = some problemGood ∧
    (({ id := 0, students := insert 1 ({0} : Finset Nat) } : Exam) ∈ problemGood.exams) ∧
    ((1 : Nat) ∈ ({ id := 0, students := insert 1 ({0} : Finset Nat) } : Exam).students) ∧
    1 + 1 ≤ problemGood.total_students := by
  have hp : read_file goodInstanceLines = some problemGood := by decide
  have hids : ∀ l ∈ goodInstanceLines, ∀ pr ∈ parseEnrollmentLine l,
      pr.2 < problemGood.total_students := by decide
  exact ⟨hp, by decide, by decide,
    C3_ingester_amended goodInstanceLines problemGood hp hids
      { id := 0, students := insert 1 ({0} : Finset Nat) } (by decide) 1 (by decide)⟩

end Timetabling
